import Mathlib

/-!
Verification of the TTHSDNext multi-threaded HTTP download engine.

This file shallowly embeds the parts of the Rust source that the verified
properties are about, and proves (or refutes) each property.  Machine
integers (`i64`, `usize`) are modelled as `Int`/`Nat`; every division that
occurs has nonnegative operands, where Rust's truncating `i64` division
agrees with Lean's `Int` division.  Floating point arithmetic (`f64`) is
modelled over `Rat`.  Fallible Rust code returns `Except`/`Option`.
-/

namespace TTHSD

/-- One byte-range chunk `[start_offset, end_offset]` (inclusive) of a remote
resource, plus a completion flag (`core/downloader.rs`, `DownloadChunk`). -/
structure DownloadChunk where
  start_offset : Int
  end_offset : Int
  done : Bool
  deriving Repr, DecidableEq

/-- A download task (`core/downloader.rs`, `DownloadTask`). -/
structure DownloadTask where
  url : String
  save_path : String
  show_name : String
  id : String
  deriving Repr, DecidableEq

/-- The event kinds of `core/downloader.rs` (`EventType`).  The source's
`End` variant (serialized as "end") is called `endAll` here because `end` is
a Lean keyword. -/
inductive EventType
  | start
  | startOne
  | update
  | endAll
  | endOne
  | msg
  | err
  deriving Repr, DecidableEq, BEq

/-- An emitted event (`core/downloader.rs`, `Event`): type plus the `Name`,
`ShowName` and `ID` fields. -/
structure Event where
  event_type : EventType
  name : String
  show_name : String
  id : String
  deriving Repr, DecidableEq

/-! ## Chunk partitioning (`HTTPDownloader::create_chunks`) -/

/-- The `while offset < file_size` loop of `HTTPDownloader::create_chunks`
(`core/http_downloader.rs` lines 166-179), written with explicit fuel: each
unit of fuel allows one loop iteration, and `none` means the fuel was
exhausted with the loop still running.  `create_chunks` below supplies
enough fuel that `none` is returned only when the Rust loop does not
terminate at all. -/
def createChunksLoop (chunkSize fileSize : Int) : Nat → Int → Option (List DownloadChunk)
  | 0, offset => if offset < fileSize then none else some []
  | fuel + 1, offset =>
    if offset < fileSize then
      match createChunksLoop chunkSize fileSize fuel
          (min (offset + chunkSize - 1) (fileSize - 1) + 1) with
      | none => none
      | some rest =>
        some ({ start_offset := offset,
                end_offset := min (offset + chunkSize - 1) (fileSize - 1),
                done := false } :: rest)
    else some []

/-- `HTTPDownloader::create_chunks` (`core/http_downloader.rs` lines
155-180).  `min_chunks = thread_count * 2`; when
`file_size / min_chunks > chunk_size` the chunk size is enlarged to
`file_size / min_chunks` with a floor of 1 MiB.  `thread_count = 0` makes
the Rust code divide by zero, which panics: that is modelled as `none`.
The loop gets `file_size.toNat` fuel; whenever the adjusted chunk size is
at least 1 the loop advances `offset` by at least 1 per iteration, so this
fuel is never exhausted, and a `none` result reflects a Rust loop that
never terminates (see `createChunksLoop_nonpos_stuck`).  All divisions here
have nonnegative operands in every use site, where Rust's truncating
division agrees with `Int` division. -/
def create_chunks (file_size chunk_size : Int) (thread_count : Nat) : Option (List DownloadChunk) :=
  if thread_count = 0 then none
  else
    let min_chunks : Int := (thread_count : Int) * 2
    let cs1 : Int :=
      if file_size / min_chunks > chunk_size then
        let c := file_size / min_chunks
        if c < 1024 * 1024 then 1024 * 1024 else c
      else chunk_size
    createChunksLoop cs1 file_size file_size.toNat 0

/-- The effective chunk size exactly as the specification words it: the
given `chunk_size` is enlarged to `content_length / (2 × thread_count)`
when that quotient exceeds it, with a floor of 1 MiB on the enlarged
value.  This definition follows the spec's words and is related to the
source's computation by `create_chunks_covers`. -/
def specEffectiveChunkSize (content_length chunk_size : Int) (thread_count : Nat) : Int :=
  if content_length / (2 * (thread_count : Int)) > chunk_size then
    max (content_length / (2 * (thread_count : Int))) (1024 * 1024)
  else chunk_size

/-- When the (adjusted) chunk size is nonpositive the `while` loop of
`create_chunks` never advances `offset` past `file_size`, i.e. it never
terminates: the fuel-indexed model returns `none` for every fuel. -/
theorem createChunksLoop_nonpos_stuck (chunkSize fileSize : Int) (hcs : chunkSize ≤ 0) :
    ∀ (fuel : Nat) (offset : Int), offset < fileSize →
      createChunksLoop chunkSize fileSize fuel offset = none := by
  intro fuel
  induction fuel with
  | zero =>
    intro offset h
    unfold createChunksLoop
    rw [if_pos h]
  | succ fuel ih =>
    intro offset h
    have h2 : min (offset + chunkSize - 1) (fileSize - 1) + 1 < fileSize := by omega
    unfold createChunksLoop
    rw [if_pos h, ih _ h2]

/-- Main invariant of the chunk loop: with chunk size at least 1 and enough
fuel, the loop succeeds and produces a contiguous cover of
`[offset, fileSize - 1]` whose chunk ends follow the source's
`min (offset + chunk_size - 1, file_size - 1)` formula. -/
theorem createChunksLoop_spec (chunkSize fileSize : Int) (hcs : 1 ≤ chunkSize) :
    ∀ (fuel : Nat) (offset : Int), 0 ≤ offset → (fileSize - offset).toNat ≤ fuel →
    ∃ l, createChunksLoop chunkSize fileSize fuel offset = some l ∧
      (offset < fileSize →
        l.head?.map DownloadChunk.start_offset = some offset ∧
        l.getLast?.map DownloadChunk.end_offset = some (fileSize - 1)) ∧
      (fileSize ≤ offset → l = []) ∧
      List.Chain' (fun a b => b.start_offset = a.end_offset + 1) l ∧
      ∀ c ∈ l, c.start_offset ≤ c.end_offset ∧
        c.end_offset = min (c.start_offset + chunkSize - 1) (fileSize - 1) ∧ c.done = false := by
  intro fuel
  induction fuel with
  | zero =>
    intro offset hoff hfuel
    have hge : fileSize ≤ offset := by omega
    refine ⟨[], ?_, fun h => absurd h (by omega), fun _ => rfl, List.chain'_nil, by simp⟩
    unfold createChunksLoop
    rw [if_neg (by omega)]
  | succ fuel ih =>
    intro offset hoff hfuel
    by_cases hlt : offset < fileSize
    · have he1 : offset ≤ min (offset + chunkSize - 1) (fileSize - 1) := by omega
      have hoff' : 0 ≤ min (offset + chunkSize - 1) (fileSize - 1) + 1 := by omega
      have hfuel' : (fileSize - (min (offset + chunkSize - 1) (fileSize - 1) + 1)).toNat ≤ fuel := by
        omega
      obtain ⟨rest, hrest, hheadlast, hempty, hchain, hall⟩ := ih _ hoff' hfuel'
      refine ⟨{ start_offset := offset,
                end_offset := min (offset + chunkSize - 1) (fileSize - 1),
                done := false } :: rest, ?_, ?_, ?_, ?_, ?_⟩
      · unfold createChunksLoop
        rw [if_pos hlt, hrest]
      · intro _
        refine ⟨rfl, ?_⟩
        rcases rest with _ | ⟨r, rs⟩
        · have : fileSize ≤ min (offset + chunkSize - 1) (fileSize - 1) + 1 := by
            by_contra hc
            push_neg at hc
            obtain ⟨h1, _⟩ := hheadlast hc
            simp at h1
          have hend : min (offset + chunkSize - 1) (fileSize - 1) = fileSize - 1 := by omega
          simp [hend]
        · have hlt2 : min (offset + chunkSize - 1) (fileSize - 1) + 1 < fileSize := by
            by_contra hc
            push_neg at hc
            have := hempty hc
            simp at this
          have := (hheadlast hlt2).2
          rw [List.getLast?_cons_cons]
          exact this
      · intro hge
        omega
      · rw [List.chain'_cons']
        refine ⟨?_, hchain⟩
        intro b hb
        rcases rest with _ | ⟨r, rs⟩
        · simp at hb
        · have hlt2 : min (offset + chunkSize - 1) (fileSize - 1) + 1 < fileSize := by
            by_contra hc
            push_neg at hc
            have := hempty hc
            simp at this
          have hhead := (hheadlast hlt2).1
          simp only [List.head?_cons, Option.map_some', Option.some_inj] at hhead
          simp only [List.head?_cons, Option.mem_def, Option.some_inj] at hb
          subst hb
          simpa using hhead
      · intro c hc
        rw [List.mem_cons] at hc
        rcases hc with rfl | hc
        · exact ⟨he1, rfl, rfl⟩
        · exact hall c hc
    · refine ⟨[], ?_, fun h => absurd h hlt, fun _ => rfl, List.chain'_nil, by simp⟩
      unfold createChunksLoop
      rw [if_neg hlt]

/-- The source's adjusted chunk size (lines 156-164) equals the spec's
effective chunk size. -/
theorem adjusted_chunk_size_eq_spec (file_size chunk_size : Int) (thread_count : Nat) :
    (if file_size / ((thread_count : Int) * 2) > chunk_size then
        (if file_size / ((thread_count : Int) * 2) < 1024 * 1024 then 1024 * 1024
         else file_size / ((thread_count : Int) * 2))
      else chunk_size)
      = specEffectiveChunkSize file_size chunk_size thread_count := by
  unfold specEffectiveChunkSize
  rw [mul_comm (thread_count : Int) 2]
  split_ifs <;> omega

/-- The spec's effective chunk size is positive whenever the configured
chunk size is. -/
theorem specEffectiveChunkSize_pos (file_size chunk_size : Int) (thread_count : Nat)
    (h : 1 ≤ chunk_size) : 1 ≤ specEffectiveChunkSize file_size chunk_size thread_count := by
  unfold specEffectiveChunkSize
  split_ifs <;> omega

/-- C2 (amended): for every `content_length > 0`, `thread_count ≥ 1` and
`chunk_size ≥ 1`, `create_chunks` terminates and produces a contiguous,
disjoint, total cover of `[0, content_length - 1]`: the first chunk starts
at 0, each next chunk starts at the previous `end_offset + 1`, the last
chunk ends at `content_length - 1`, every chunk is nonempty, and every
chunk ends at `min (start + effective_chunk_size - 1, content_length - 1)`
where the effective chunk size is the given one enlarged to
`content_length / (2 × thread_count)` (floored at 1 MiB) when that quotient
exceeds it. -/
theorem create_chunks_covers (file_size chunk_size : Int) (thread_count : Nat)
    (h1 : 0 < file_size) (h2 : 1 ≤ chunk_size) (h3 : 1 ≤ thread_count) :
    ∃ l, create_chunks file_size chunk_size thread_count = some l ∧
      l.head?.map DownloadChunk.start_offset = some 0 ∧
      l.getLast?.map DownloadChunk.end_offset = some (file_size - 1) ∧
      List.Chain' (fun a b => b.start_offset = a.end_offset + 1) l ∧
      ∀ c ∈ l, c.start_offset ≤ c.end_offset ∧
        c.end_offset
          = min (c.start_offset + specEffectiveChunkSize file_size chunk_size thread_count - 1)
              (file_size - 1) := by
  have htc : thread_count ≠ 0 := by omega
  have hpos := specEffectiveChunkSize_pos file_size chunk_size thread_count h2
  obtain ⟨l, hl, hheadlast, _, hchain, hall⟩ :=
    createChunksLoop_spec (specEffectiveChunkSize file_size chunk_size thread_count) file_size
      hpos file_size.toNat 0 le_rfl (by omega)
  refine ⟨l, ?_, (hheadlast h1).1, (hheadlast h1).2, hchain,
    fun c hc => ⟨(hall c hc).1, (hall c hc).2.1⟩⟩
  unfold create_chunks
  rw [if_neg htc]
  simp only
  rw [adjusted_chunk_size_eq_spec]
  exact hl

/-- C2 counterexample: the claim quantifies over every `thread_count` and
`chunk_size`, but at `content_length = 5 > 0` the code produces no chunk
list at all for `thread_count = 0` (the computation of
`file_size / min_chunks` divides by zero and panics) or for
`chunk_size = 0` (the loop body never advances `offset`, so the `while`
loop never terminates; see `createChunksLoop_nonpos_stuck`). -/
theorem create_chunks_claim_counterexample :
    create_chunks 5 (10 * 1024 * 1024) 0 = none ∧
    create_chunks 5 0 10 = none ∧
    (0 : Int) < 5 := by
  refine ⟨rfl, ?_, by decide⟩
  decide

/-- Witness instantiating `create_chunks_covers` at
`content_length = 5`, `chunk_size = 2`, `thread_count = 1`. -/
theorem create_chunks_covers_witness :
    ∃ l, create_chunks 5 2 1 = some l ∧
      l.head?.map DownloadChunk.start_offset = some 0 ∧
      l.getLast?.map DownloadChunk.end_offset = some (5 - 1) ∧
      List.Chain' (fun a b => b.start_offset = a.end_offset + 1) l ∧
      ∀ c ∈ l, c.start_offset ≤ c.end_offset ∧
        c.end_offset
          = min (c.start_offset + specEffectiveChunkSize 5 2 1 - 1) (5 - 1) :=
  create_chunks_covers 5 2 1 (by decide) (by decide) (by decide)

/-! ## Download status snapshot (`DownloadStatus::snapshot`) -/

/-- The snapshot record of `core/http_downloader.rs` (`DownloadSnapshot`),
with `f64` fields modelled over `Rat`. -/
structure DownloadSnapshot where
  downloaded : Int
  total_size : Int
  progress_percentage : Rat
  is_finished : Bool
  error_message : Option String
  current_speed_bps : Rat
  average_speed_bps : Rat
  elapsed_seconds : Rat
  deriving Repr, DecidableEq

/-- `DownloadStatus::snapshot` (`core/http_downloader.rs` lines 73-95).
`total_size` is the status's fixed field; `downloaded` and `error_message`
are the values read from the shared cells; the speeds and the elapsed time
are passed through. -/
def snapshot (total_size downloaded : Int) (error_message : Option String)
    (current_speed average_speed elapsed : Rat) : DownloadSnapshot :=
  let progress_percentage : Rat :=
    if total_size > 0 then ((downloaded : Rat) / (total_size : Rat)) * 100 else 0
  let is_finished : Bool := decide (downloaded ≥ total_size) || error_message.isSome
  { downloaded := downloaded
    total_size := total_size
    progress_percentage := progress_percentage
    is_finished := is_finished
    error_message := error_message
    current_speed_bps := current_speed
    average_speed_bps := average_speed
    elapsed_seconds := elapsed }

/-- C10: `snapshot` is total; the reported progress percentage is 0 when
`total_size ≤ 0` (the division is guarded) and `downloaded / total_size × 100`
otherwise, and `is_finished` holds iff `downloaded ≥ total_size` or an error
message has been set. -/
theorem snapshot_progress_total_and_finished (total_size downloaded : Int)
    (em : Option String) (cs avg el : Rat) :
    ((snapshot total_size downloaded em cs avg el).progress_percentage
        = if total_size ≤ 0 then 0 else (downloaded : Rat) / (total_size : Rat) * 100) ∧
    ((snapshot total_size downloaded em cs avg el).is_finished = true ↔
        total_size ≤ downloaded ∨ em.isSome = true) := by
  constructor
  · show (if total_size > 0 then ((downloaded : Rat) / (total_size : Rat)) * 100 else 0) = _
    split_ifs <;> first | rfl | omega
  · show (decide (downloaded ≥ total_size) || em.isSome) = true ↔ _
    rw [Bool.or_eq_true, decide_eq_true_eq]

/-! ## Size probe (`HTTPDownloader::get_file_size`) -/

/-- The value of a decimal digit list, most significant first. -/
def digitsToNat (l : List Char) : Nat :=
  l.foldl (fun acc c => acc * 10 + (c.toNat - 48)) 0

/-- Rust's `str::parse::<i64>`: an optional `+`/`-` sign followed by one or
more ASCII digits, anything else rejected, and the value must fit in
`i64`. -/
def rustParseI64 (s : String) : Option Int :=
  match s.toList with
  | [] => none
  | c :: rest =>
    let signDigits : Bool × List Char :=
      if c = '-' then (true, rest)
      else if c = '+' then (false, rest)
      else (false, c :: rest)
    let digits := signDigits.2
    if digits.isEmpty then none
    else if digits.all Char.isDigit then
      let v : Int :=
        if signDigits.1 then -(digitsToNat digits : Int) else (digitsToNat digits : Int)
      if v < -(2 ^ 63) ∨ 2 ^ 63 - 1 < v then none else some v
    else none

/-- What `get_file_size` observes of the `HEAD` response: the status code
and the `Content-Length` header rendered as a string (`none` when the
header is absent or not `to_str`-decodable). -/
structure HeadResponse where
  status : Nat
  content_length : Option String
  deriving Repr, DecidableEq

/-- `StatusCode::is_success` of the http crate: `200 ≤ status ≤ 299`. -/
def isSuccessStatus (status : Nat) : Bool :=
  decide (200 ≤ status) && decide (status ≤ 299)

/-- The two failure shapes of `get_file_size`: the string error
`"HEAD failed: {status}"` (the spec's `BadStatus`) and the string error
`"Invalid content length"` (the spec's `UnknownSize`). -/
inductive ProbeError
  | headFailed (status : Nat)
  | invalidContentLength
  deriving Repr, DecidableEq

/-- `HTTPDownloader::get_file_size` (`core/http_downloader.rs` lines
131-153): require a 2xx status, then parse `Content-Length` as `i64` and
require it to be strictly positive. -/
def get_file_size (resp : HeadResponse) : Except ProbeError Int :=
  if ¬ isSuccessStatus resp.status then Except.error (ProbeError.headFailed resp.status)
  else
    match resp.content_length.bind rustParseI64 with
    | none => Except.error ProbeError.invalidContentLength
    | some n =>
      if n ≤ 0 then Except.error ProbeError.invalidContentLength else Except.ok n

/-- C8 counterexample: the claim says every probe failure is `UnknownSize`,
but a non-2xx `HEAD` response (here 404, with a perfectly good
`Content-Length`) fails with the distinct `"HEAD failed"` (`BadStatus`)
error, not with `"Invalid content length"` (`UnknownSize`). -/
theorem get_file_size_claim_counterexample :
    get_file_size { status := 404, content_length := some "5" }
        = Except.error (ProbeError.headFailed 404) ∧
    ProbeError.headFailed 404 ≠ ProbeError.invalidContentLength :=
  ⟨rfl, by decide⟩

/-- C8 (amended): the probe succeeds iff the `HEAD` status is 2xx and
`Content-Length` parses as a strictly positive integer, returning that
integer; a non-2xx status fails with `BadStatus`; with a 2xx status, a
missing, unparsable or non-positive `Content-Length` fails with
`UnknownSize` — in particular a zero-byte resource (`Content-Length: 0`)
fails with `UnknownSize` rather than producing a zero-length chunk. -/
theorem get_file_size_spec (resp : HeadResponse) :
    ((∃ n, get_file_size resp = Except.ok n) ↔
        isSuccessStatus resp.status = true ∧
          ∃ n, resp.content_length.bind rustParseI64 = some n ∧ 0 < n) ∧
    (∀ n, get_file_size resp = Except.ok n →
        resp.content_length.bind rustParseI64 = some n) ∧
    (isSuccessStatus resp.status = false →
        get_file_size resp = Except.error (ProbeError.headFailed resp.status)) ∧
    (isSuccessStatus resp.status = true →
        (resp.content_length.bind rustParseI64 = none →
            get_file_size resp = Except.error ProbeError.invalidContentLength) ∧
        (∀ n, resp.content_length.bind rustParseI64 = some n → n ≤ 0 →
            get_file_size resp = Except.error ProbeError.invalidContentLength)) := by
  by_cases hs : isSuccessStatus resp.status = true
  · rcases hcl : resp.content_length.bind rustParseI64 with _ | n
    · have hred : get_file_size resp = Except.error ProbeError.invalidContentLength := by
        unfold get_file_size
        rw [if_neg (by simp [hs]), hcl]
      refine ⟨⟨?_, ?_⟩, ?_, ?_,
        fun _ => ⟨fun _ => hred, fun m hm _ => by cases hm⟩⟩
      · rintro ⟨n, hn⟩
        rw [hred] at hn
        cases hn
      · rintro ⟨_, n, hn, _⟩
        cases hn
      · intro n hn
        rw [hred] at hn
        cases hn
      · intro hfalse
        rw [hs] at hfalse
        cases hfalse
    · by_cases hn : n ≤ 0
      · have hred : get_file_size resp = Except.error ProbeError.invalidContentLength := by
          unfold get_file_size
          rw [if_neg (by simp [hs]), hcl]
          show (if n ≤ 0 then Except.error ProbeError.invalidContentLength else Except.ok n) = _
          rw [if_pos hn]
        refine ⟨⟨?_, ?_⟩, ?_, ?_, fun _ => ⟨?_, ?_⟩⟩
        · rintro ⟨m, hm⟩
          rw [hred] at hm
          cases hm
        · rintro ⟨_, m, hm, hmpos⟩
          rw [Option.some_inj] at hm
          subst hm
          omega
        · intro m hm
          rw [hred] at hm
          cases hm
        · intro hfalse
          rw [hs] at hfalse
          cases hfalse
        · intro h
          cases h
        · intro m hm _
          exact hred
      · have hred : get_file_size resp = Except.ok n := by
          unfold get_file_size
          rw [if_neg (by simp [hs]), hcl]
          show (if n ≤ 0 then Except.error ProbeError.invalidContentLength else Except.ok n) = _
          rw [if_neg hn]
        refine ⟨⟨?_, ?_⟩, ?_, ?_, fun _ => ⟨?_, ?_⟩⟩
        · exact fun _ => ⟨hs, n, rfl, by omega⟩
        · exact fun _ => ⟨n, hred⟩
        · intro m hm
          rw [hred] at hm
          injection hm with h
          subst h
          rfl
        · intro hfalse
          rw [hs] at hfalse
          cases hfalse
        · intro h
          cases h
        · intro m hm hm0
          rw [Option.some_inj] at hm
          subst hm
          omega
  · have hred : get_file_size resp = Except.error (ProbeError.headFailed resp.status) := by
      unfold get_file_size
      rw [if_pos (by simpa using hs)]
    refine ⟨⟨?_, ?_⟩, ?_, fun _ => hred, fun htrue => absurd htrue hs⟩
    · rintro ⟨n, hn⟩
      rw [hred] at hn
      cases hn
    · rintro ⟨htrue, _⟩
      exact absurd htrue hs
    · intro n hn
      rw [hred] at hn
      cases hn

/-- Witness instantiating `get_file_size_spec` at a 2xx response carrying
`Content-Length: 0`: the probe fails with `UnknownSize`. -/
theorem get_file_size_spec_witness :
    get_file_size { status := 200, content_length := some "0" }
      = Except.error ProbeError.invalidContentLength :=
  ((get_file_size_spec { status := 200, content_length := some "0" }).2.2.2
    (by decide)).2 0 (by decide) (by decide)

/-! ## File pre-allocation fallback (`HTTPDownloader::download`, lines 326-344) -/

/-- The FAT32 single-file limit constant of the source:
`4_294_967_295 = 2^32 - 1`. -/
def FAT32_MAX_FILE_SIZE : Int := 4294967295

/-- Models `format!("{:.2}", file_size as f64 / 1024.0 / 1024.0 / 1024.0)`:
the number of hundredths of a GiB, rounding the rational value to the
nearest hundredth.  (For any file size below `2^53` the `f64` division is
essentially exact, and the two-decimal rendering agrees with this rational
rounding except on representation-boundary ties.) -/
def gbHundredths (file_size : Int) : Int :=
  (file_size * 100 + 2 ^ 29) / 2 ^ 30

/-- The decimal rendering `"<int>.<2 digits>"` of `gbHundredths`. -/
def formatGB2 (file_size : Int) : String :=
  let h := gbHundredths file_size
  toString (h / 100) ++ "." ++ (if h % 100 < 10 then "0" else "") ++ toString (h % 100)

/-- The error message of the FAT32 branch (line 338-341), with the
formatted size inline. -/
def fat32ErrorMessage (file_size : Int) : String :=
  "文件大小 (" ++ formatGB2 file_size
    ++ " GB) 超过 FAT32 文件系统的 4GB 限制，请将目标路径改为 NTFS/exFAT 分区"

/-- What the pre-allocation step decides: an error aborting the task, or
continuation, with `warned` recording whether the「无法预分配文件空间」
warning was printed. -/
structure PreallocOutcome where
  result : Except String Unit
  warned : Bool
  deriving Repr

/-- `HTTPDownloader::download` lines 326-344: the handling of a failed
`file.set_len(file_size)`.  On failure, sizes above `FAT32_MAX_FILE_SIZE`
abort the task with the explicit FAT32 message; otherwise only a warning is
logged and the download continues without pre-allocation. -/
def preallocFailureHandling (file_size : Int) (set_len_failed : Bool) : PreallocOutcome :=
  if set_len_failed then
    if file_size > FAT32_MAX_FILE_SIZE then
      { result := Except.error (fat32ErrorMessage file_size), warned := false }
    else
      { result := Except.ok (), warned := true }
  else { result := Except.ok (), warned := false }

/-- C9: when pre-allocation fails, the task errors iff
`content_length > 2^32 - 1`, the error message contains the formatted
exceeded size, and for `content_length ≤ 2^32 - 1` a warning is logged and
the download continues. -/
theorem prealloc_fat32_spec (file_size : Int) :
    ((preallocFailureHandling file_size true).result = Except.ok () ↔
        file_size ≤ 4294967295) ∧
    (file_size > 4294967295 →
        ∃ pre post : String,
          (preallocFailureHandling file_size true).result
            = Except.error (pre ++ formatGB2 file_size ++ post)) ∧
    (file_size ≤ 4294967295 →
        (preallocFailureHandling file_size true).warned = true) := by
  by_cases h : file_size > FAT32_MAX_FILE_SIZE
  · have hred : preallocFailureHandling file_size true
        = { result := Except.error (fat32ErrorMessage file_size), warned := false } := by
      unfold preallocFailureHandling
      rw [if_pos rfl, if_pos h]
    refine ⟨?_, ?_, ?_⟩
    · rw [hred]
      unfold FAT32_MAX_FILE_SIZE at h
      constructor
      · intro hc
        cases hc
      · intro hle
        omega
    · intro _
      exact ⟨"文件大小 (",
        " GB) 超过 FAT32 文件系统的 4GB 限制，请将目标路径改为 NTFS/exFAT 分区",
        by rw [hred]; rfl⟩
    · intro hle
      unfold FAT32_MAX_FILE_SIZE at h
      omega
  · have hred : preallocFailureHandling file_size true
        = { result := Except.ok (), warned := true } := by
      unfold preallocFailureHandling
      rw [if_pos rfl, if_neg h]
    unfold FAT32_MAX_FILE_SIZE at h
    refine ⟨?_, ?_, ?_⟩
    · rw [hred]
      exact ⟨fun _ => by omega, fun _ => rfl⟩
    · intro hgt
      omega
    · intro _
      rw [hred]

/-- Witness instantiating `prealloc_fat32_spec` at a 5 GB file
(`file_size = 5368709120 > 2^32 - 1`): pre-allocation failure aborts with a
message containing the formatted size. -/
theorem prealloc_fat32_spec_witness :
    (5368709120 : Int) > 4294967295 ∧
    ∃ pre post : String,
      (preallocFailureHandling 5368709120 true).result
        = Except.error (pre ++ formatGB2 5368709120 ++ post) :=
  ⟨by decide, (prealloc_fat32_spec 5368709120).2.1 (by decide)⟩

/-! ## Task completion (`HTTPDownloader::download`, lines 363-389) -/

/-- The inner result of one chunk worker, i.e. what the future spawned for
`download_chunk` returns. -/
inductive ChunkOutcome
  | ok
  | fail (msg : String)
  deriving Repr, DecidableEq

/-- What `JoinSet::join_next` yields for one worker: `joined r` when the
worker ran to completion with its own result `r`, `joinError` when the
worker panicked or was aborted. -/
inductive WorkerResult
  | joined (r : ChunkOutcome)
  | joinError (msg : String)
  deriving Repr, DecidableEq

/-- Whether a chunk worker itself reported success. -/
def chunkSucceeded : WorkerResult → Bool
  | WorkerResult.joined ChunkOutcome.ok => true
  | _ => false

/-- The observable outcome of the tail of `HTTPDownloader::download`:
the `"worker error"` messages it emits, the status error it records, and
its return value (`error (got, want)` models the
`"download incomplete: {got}/{want} bytes"` error). -/
structure CompletionOutcome where
  err_messages : List String
  status_error : Option String
  result : Except (Int × Int) Unit

/-- `HTTPDownloader::download` lines 375-389.  The `while let` loop binds
`result` to what `join_next` yields, and `if let Err(e) = result` matches
only the join-error case: a worker's own `Err` is carried inside the `Ok`
of `join_next` and is never inspected.  After the loop the shared counter
is compared with `file_size`, and that comparison alone decides the return
value. -/
def downloadCompletion (content_length : Int) (results : List WorkerResult)
    (downloaded_size : Int) : CompletionOutcome :=
  let joinErrs := results.filterMap (fun r =>
    match r with
    | WorkerResult.joinError m => some ("worker error: " ++ m)
    | WorkerResult.joined _ => none)
  { err_messages := joinErrs
    status_error := joinErrs.getLast?
    result :=
      if downloaded_size ≠ content_length
      then Except.error (downloaded_size, content_length)
      else Except.ok () }

/-- C3 counterexample: a run in which the single chunk worker failed
(`"connection stalled"`) but the shared counter still equals
`content_length` (possible when a server ignores the `Range` header and
streams the whole body) returns success, while the claim requires the task
to fail whenever any chunk worker failed. -/
theorem download_completion_claim_counterexample :
    (downloadCompletion 100
        [WorkerResult.joined (ChunkOutcome.fail "connection stalled")] 100).result
      = Except.ok () ∧
    chunkSucceeded (WorkerResult.joined (ChunkOutcome.fail "connection stalled")) = false :=
  ⟨rfl, rfl⟩

/-- C3 (amended): the download returns success iff the accumulated counter
equals `content_length`, and otherwise returns the incomplete error
carrying the bytes written and the expected `content_length`; the chunk
workers' own results do not enter this decision. -/
theorem download_completion_result (content_length downloaded_size : Int)
    (results : List WorkerResult) :
    ((downloadCompletion content_length results downloaded_size).result = Except.ok () ↔
        downloaded_size = content_length) ∧
    ((downloadCompletion content_length results downloaded_size).result
        = Except.error (downloaded_size, content_length) ↔
        downloaded_size ≠ content_length) := by
  by_cases h : downloaded_size = content_length
  · constructor
    · rw [show (downloadCompletion content_length results downloaded_size).result
          = Except.ok () from by unfold downloadCompletion; rw [if_neg (by simpa using h)]]
      exact ⟨fun _ => h, fun _ => rfl⟩
    · rw [show (downloadCompletion content_length results downloaded_size).result
          = Except.ok () from by unfold downloadCompletion; rw [if_neg (by simpa using h)]]
      exact ⟨fun hc => Except.noConfusion hc, fun hc => absurd h hc⟩
  · constructor
    · rw [show (downloadCompletion content_length results downloaded_size).result
          = Except.error (downloaded_size, content_length) from by
            unfold downloadCompletion; rw [if_pos h]]
      exact ⟨fun hc => Except.noConfusion hc, fun hc => absurd hc h⟩
    · rw [show (downloadCompletion content_length results downloaded_size).result
          = Except.error (downloaded_size, content_length) from by
            unfold downloadCompletion; rw [if_pos h]]
      exact ⟨fun _ => h, fun _ => rfl⟩

/-! ## Stall detection (`HTTPDownloader::download_chunk`, lines 207-266) -/

/-- A tokio bounded mpsc channel as seen through one `Sender`:
`receiver_alive = false` means the `Receiver` has been dropped, which
closes the channel. -/
structure MpscChannel where
  capacity : Nat
  queued : Nat
  receiver_alive : Bool
  deriving Repr, DecidableEq

/-- tokio semantics of `Sender::try_reserve`: succeeds iff the channel is
open and has spare capacity; on a closed channel it returns
`Err(TrySendError::Closed)` regardless of occupancy. -/
def MpscChannel.tryReserveOk (c : MpscChannel) : Bool :=
  c.receiver_alive && decide (c.queued < c.capacity)

/-- tokio semantics of `Sender::send` as used by the watchdog: on a closed
channel it returns an error immediately and queues nothing; on an open
channel with spare capacity it queues the message.  (On a full open channel
`send` would wait; that case does not arise below because the channel is
closed from the start.) -/
def MpscChannel.sendMsg (c : MpscChannel) : MpscChannel × Bool :=
  if c.receiver_alive ∧ c.queued < c.capacity then
    ({ c with queued := c.queued + 1 }, true)
  else (c, false)

/-- Line 208 of `download_chunk`:
`let stalled_tx = Arc::new(mpsc::channel::<()>(1).0);` keeps only the
sender — the receiver is dropped immediately, so the channel is closed
from creation on. -/
def stalledChannelInit : MpscChannel :=
  { capacity := 1, queued := 0, receiver_alive := false }

/-- `STALL_TIMEOUT` (line 14): 30 seconds. -/
def STALL_TIMEOUT_SECS : Nat := 30

/-- One pass of the stall machinery of `download_chunk` for a given elapsed
time since the last byte was read: the background watchdog (lines 212-225)
sends on `stalled_tx` when more than `STALL_TIMEOUT` has elapsed, and the
read loop's check (lines 263-265) returns the `"connection stalled"` error
iff `stalled_tx.try_reserve()` returns `Ok`. -/
def chunkStallOutcome (elapsed_since_last_read_secs : Nat) : Option String :=
  let c0 := stalledChannelInit
  let c1 :=
    if elapsed_since_last_read_secs > STALL_TIMEOUT_SECS then (c0.sendMsg).1 else c0
  if c1.tryReserveOk then some "connection stalled" else none

/-- C5: the stall check can never fire.  The channel's receiver is dropped
at creation, so `try_reserve` always returns `Err(Closed)` and the
`"connection stalled"` branch is unreachable — no matter how long no byte
has been read, in particular after 31 seconds, where the claim requires the
chunk to be failed with `Stalled`. -/
theorem stall_check_never_fires (elapsed : Nat) :
    chunkStallOutcome elapsed = none ∧ chunkStallOutcome 31 = none := by
  constructor
  · unfold chunkStallOutcome stalledChannelInit MpscChannel.sendMsg MpscChannel.tryReserveOk
    split <;> rfl
  · rfl

/-! ## Session start/pause gate (`HSDownloader`, lines 138-147, 256-265, 445-450) -/

/-- The session's cancel state: `HSDownloader.cancel_token` holds
`Some(token)` exactly while a run is in progress.  Tokens are identified by
a number. -/
abbrev SessionCancelState := Option Nat

/-- The entry gate of `HSDownloader::start_download` (lines 138-147): if a
cancel token is already present the call fails with
`"downloader already running"` and changes nothing; otherwise a fresh token
is stored.  Returns the new state and the error, if any. -/
def start_download_gate (st : SessionCancelState) (fresh : Nat) :
    SessionCancelState × Option String :=
  match st with
  | some t => (some t, some "downloader already running")
  | none => (some fresh, none)

/-- The entry gate of `HSDownloader::start_multiple_downloads`
(lines 256-265) — textually identical to the `start_download` gate. -/
def start_multiple_downloads_gate (st : SessionCancelState) (fresh : Nat) :
    SessionCancelState × Option String :=
  match st with
  | some t => (some t, some "downloader already running")
  | none => (some fresh, none)

/-- `HSDownloader::pause_download` (lines 445-450): `cancel_guard.take()`
leaves the cancel state empty (the taken token, if any, is cancelled). -/
def pause_download_state (_st : SessionCancelState) : SessionCancelState :=
  none

/-- A session is running exactly when a cancel token is stored. -/
def session_running (st : SessionCancelState) : Bool :=
  st.isSome

/-- C4: while a cancel token is set, `start_download` and
`start_multiple_downloads` fail with the already-running error and leave the
state unchanged; the session is running iff the cancel state is non-null;
and `pause_download` clears the cancel state so that a subsequent
start/resume succeeds. -/
theorem session_start_pause_invariants (st : SessionCancelState) (t fresh : Nat) :
    start_download_gate (some t) fresh = (some t, some "downloader already running") ∧
    start_multiple_downloads_gate (some t) fresh
      = (some t, some "downloader already running") ∧
    (session_running st = true ↔ st ≠ none) ∧
    pause_download_state st = none ∧
    start_download_gate (pause_download_state st) fresh = (some fresh, none) := by
  refine ⟨rfl, rfl, ?_, rfl, rfl⟩
  cases st <;> simp [session_running]

/-! ## Per-task event protocol (`HSDownloader::download_task`, lines 370-443) -/

/-- The event sequence emitted by one `download_task` invocation
(`core/downloader.rs` lines 370-443): a `startOne` event, then — only when
the download returned an error and the cancel token is not cancelled at
that moment — an `err` event, then an `endOne` event.  `download_err` is
the result of `downloader.download(&task)`, `cancelled` the value of
`token.is_cancelled()` after the failure.  (The data payloads carry
`URL`/`SavePath`/`ShowName`/`Index`/`Total` and are irrelevant to the event
sequence.) -/
def download_task_events (task : DownloadTask) (download_err : Option String)
    (cancelled : Bool) : List Event :=
  [{ event_type := EventType.startOne, name := "开始一个下载",
     show_name := task.show_name, id := task.id }] ++
  (match download_err with
   | some _ =>
     if cancelled then []
     else [{ event_type := EventType.err, name := "错误",
             show_name := task.show_name, id := task.id }]
   | none => []) ++
  [{ event_type := EventType.endOne, name := "结束一个下载",
     show_name := task.show_name, id := task.id }]

/-- Occurrences of an event type in a trace. -/
def countT (l : List EventType) (t : EventType) : Nat :=
  (l.filter (fun u => u == t)).length

/-- Index of the first occurrence of an event type in a trace (the trace
length when absent). -/
def idxT (l : List EventType) (t : EventType) : Nat :=
  l.findIdx (fun u => u == t)

/-- C7: every `download_task` invocation emits exactly one `startOne` and
exactly one `endOne`, with `startOne` strictly before `endOne`; it emits an
`err` iff the download failed and the session was not cancelled, and that
`err` strictly precedes the `endOne`. -/
theorem download_task_event_protocol (task : DownloadTask) (download_err : Option String)
    (cancelled : Bool) :
    countT ((download_task_events task download_err cancelled).map Event.event_type)
        EventType.startOne = 1 ∧
    countT ((download_task_events task download_err cancelled).map Event.event_type)
        EventType.endOne = 1 ∧
    idxT ((download_task_events task download_err cancelled).map Event.event_type)
        EventType.startOne
      < idxT ((download_task_events task download_err cancelled).map Event.event_type)
          EventType.endOne ∧
    countT ((download_task_events task download_err cancelled).map Event.event_type)
        EventType.err
      = (if download_err.isSome = true ∧ cancelled = false then 1 else 0) ∧
    (download_err.isSome = true ∧ cancelled = false →
      idxT ((download_task_events task download_err cancelled).map Event.event_type)
          EventType.err
        < idxT ((download_task_events task download_err cancelled).map Event.event_type)
            EventType.endOne) := by
  rcases download_err with _ | e <;> cases cancelled <;>
    simp [download_task_events, countT, idxT, List.findIdx, List.findIdx.go] <;> decide

/-- Witness instantiating `download_task_event_protocol` at a concrete
failed, uncancelled task. -/
theorem download_task_event_protocol_witness :
    countT ((download_task_events
        { url := "http:u", save_path := "p", show_name := "n", id := "tid" }
        (some "boom") false).map Event.event_type) EventType.startOne = 1 ∧
    countT ((download_task_events
        { url := "http:u", save_path := "p", show_name := "n", id := "tid" }
        (some "boom") false).map Event.event_type) EventType.endOne = 1 ∧
    idxT ((download_task_events
        { url := "http:u", save_path := "p", show_name := "n", id := "tid" }
        (some "boom") false).map Event.event_type) EventType.startOne
      < idxT ((download_task_events
          { url := "http:u", save_path := "p", show_name := "n", id := "tid" }
          (some "boom") false).map Event.event_type) EventType.endOne ∧
    countT ((download_task_events
        { url := "http:u", save_path := "p", show_name := "n", id := "tid" }
        (some "boom") false).map Event.event_type) EventType.err
      = (if (some "boom" : Option String).isSome = true ∧ false = false then 1 else 0) ∧
    ((some "boom" : Option String).isSome = true ∧ false = false →
      idxT ((download_task_events
          { url := "http:u", save_path := "p", show_name := "n", id := "tid" }
          (some "boom") false).map Event.event_type) EventType.err
        < idxT ((download_task_events
            { url := "http:u", save_path := "p", show_name := "n", id := "tid" }
            (some "boom") false).map Event.event_type) EventType.endOne) :=
  download_task_event_protocol
    { url := "http:u", save_path := "p", show_name := "n", id := "tid" } (some "boom") false

/-! ## Telemetry ticker payload (`start_download` lines 189-218,
`start_multiple_downloads` lines 307-337) -/

/-- The performance monitor's observable state at a ticker tick: the target
size, the bytes downloaded so far, and the derived statistics. -/
structure MonitorState where
  total_bytes : Int
  downloaded_bytes : Int
  current_speed_bps : Rat
  average_speed_bps : Rat
  elapsed_seconds : Rat
  deriving Repr, DecidableEq

/-- A stats map: string keys to numeric JSON values, insertion at the
front so that `lookup` sees the latest binding (the semantics of
`HashMap::insert`). -/
abbrev Stats := List (String × Rat)

/-- `HashMap::insert`: the new binding shadows any older one. -/
def statsInsert (k : String) (v : Rat) (s : Stats) : Stats :=
  (k, v) :: s.filter (fun p => p.1 != k)

/-- Modelled from the spec: `PerformanceMonitor::get_stats`
(`performance_monitor.rs`, which is not under `src/`).  Spec §4.3: the
exported statistics are `total_bytes`, `downloaded_bytes` (and the
duplicate key `Downloaded` for binding compatibility), `current_speed_bps`,
`average_speed_bps`, `elapsed_seconds` and `progress_percentage`.  The
source callers confirm the key meanings: `monitor.set_total_bytes(file_size)`
sets the target, `monitor.add_bytes(n)` adds downloaded bytes. -/
def get_stats (m : MonitorState) : Stats :=
  [("total_bytes", (m.total_bytes : Rat)),
   ("downloaded_bytes", (m.downloaded_bytes : Rat)),
   ("Downloaded", (m.downloaded_bytes : Rat)),
   ("current_speed_bps", m.current_speed_bps),
   ("average_speed_bps", m.average_speed_bps),
   ("elapsed_seconds", m.elapsed_seconds),
   ("progress_percentage",
     if m.total_bytes > 0 then (m.downloaded_bytes : Rat) / (m.total_bytes : Rat) * 100 else 0)]

/-- The data payload of the 500 ms ticker's `update` event
(`core/downloader.rs` lines 194-207 and 312-326): the ticker takes
`get_stats` and then executes
`if let Some(total_bytes) = stats.get("total_bytes").cloned()
 { stats.insert("Downloaded".to_string(), total_bytes); }`
— it stores the value of the `total_bytes` key under `Downloaded`. -/
def updateEventData (m : MonitorState) : Stats :=
  let stats := get_stats m
  match stats.lookup "total_bytes" with
  | some total_bytes => statsInsert "Downloaded" total_bytes stats
  | none => stats

/-- C1: on a tick where 300 of 1000 bytes are downloaded, the emitted
`update` payload does contain both keys, but `Downloaded` holds 1000 — the
value of `total_bytes` — while `downloaded_bytes` holds 300, so the claimed
equality `Downloaded = downloaded_bytes` fails. -/
theorem update_downloaded_alias_mismatch :
    (updateEventData
        { total_bytes := 1000, downloaded_bytes := 300, current_speed_bps := 0,
          average_speed_bps := 0, elapsed_seconds := 0 }).lookup "Downloaded"
      = some (1000 : Rat) ∧
    (updateEventData
        { total_bytes := 1000, downloaded_bytes := 300, current_speed_bps := 0,
          average_speed_bps := 0, elapsed_seconds := 0 }).lookup "downloaded_bytes"
      = some (300 : Rat) ∧
    (1000 : Rat) ≠ 300 := by
  refine ⟨by decide, by decide, by norm_num⟩

/-! ## FFI callback fan-out (`bindings/rust/src/downloader.rs`, lines 41-92) -/

/-- The event record the binding deserializes from the callback's event
JSON (`bindings/rust/src/event.rs`, `DownloadEvent`). -/
structure BindingEvent where
  event_type : String
  name : String
  show_name : String
  id : String
  deriving Repr, DecidableEq

/-- Channels are identified by a number; the global `SENDER_MAP` maps a
downloader id to the channel registered for it (`register_channel`,
lines 50-54). -/
abbrev SenderMap := List (Int × Nat)

/-- The fan-out performed by `global_c_callback` (lines 87-92) once the
event has been parsed: the message is sent to **every** channel in the
sender map — `for sender in map.values() { sender.send(msg) }` — without
looking at `event.ID`. -/
def globalCallbackDelivery (map : SenderMap) (_event : BindingEvent) : List Nat :=
  map.map Prod.snd

/-- Modelled from the spec: the routing §9 mandates — deliver the event
only to the channels of sessions one of whose task ids equals the event's
`ID` field. -/
def specRoutedDelivery (map : SenderMap) (sessionTasks : Int → List String)
    (event : BindingEvent) : List Nat :=
  (map.filter (fun p => (sessionTasks p.1).contains event.id)).map Prod.snd

/-- C6: with two sessions registered (session 1 owning task `"task-A"`,
session 2 owning task `"task-B"`), an event whose `ID` is `"task-A"` is
delivered by the code to both channels 10 and 20, whereas the mandated
routing delivers it only to channel 10. -/
theorem callback_broadcasts_to_all_channels :
    globalCallbackDelivery [(1, 10), (2, 20)]
        { event_type := "startOne", name := "", show_name := "", id := "task-A" }
      = [10, 20] ∧
    specRoutedDelivery [(1, 10), (2, 20)]
        (fun i => if i = 1 then ["task-A"] else ["task-B"])
        { event_type := "startOne", name := "", show_name := "", id := "task-A" }
      = [10] := by
  exact ⟨rfl, by decide⟩

end TTHSD
